import Mathlib

/-! Verification development for the `RobustDetroitGeofence` classifier of
`generate_motion_forecasting_single_kml.py`.

The classifier is embedded shallowly: Python floats become `ℚ`, the mutable
object state (the coordinate cache, plus observable effects: number of
invocations of the external projection provider, number of invocations of the
external point-in-polygon primitive, and emitted warnings) becomes an explicit
`GeoState` value threaded through every operation.  The external projection
routine `convert_city_coords_to_wgs84` is an abstract parameter `Provider`
that either returns a `(lat, lon)` pair or raises (`Except.error`).
-/

namespace Geofence

/-- The external projection provider `convert_city_coords_to_wgs84` applied to
a single `(x, y)` point: it may return a `(lat, lon)` pair or raise an
exception carrying a message. -/
abbrev Provider := ℚ → ℚ → Except String (ℚ × ℚ)

/-- The coordinate cache `self.coordinate_cache`: a mapping from `(x, y)` keys
to `(lat, lon)` values, represented as an insertion-ordered association list
(the code only ever inserts under a key that is absent, so no key occurs
twice). -/
abbrev Cache := List ((ℚ × ℚ) × (ℚ × ℚ))

/-- Dictionary lookup `self.coordinate_cache[cache_key]` (first matching
binding). -/
def cacheLookup : Cache → ℚ × ℚ → Option (ℚ × ℚ)
  | [], _ => none
  | e :: rest, k => if e.1 = k then some e.2 else cacheLookup rest k

/-- The mutable state of one `RobustDetroitGeofence` instance together with
its observable external effects: the coordinate cache, the number of calls
made to the projection provider, the number of calls made to the
point-in-polygon primitive, and the warnings printed (each naming the
offending coordinate pair and the exception message). -/
structure GeoState where
  cache : Cache
  projCalls : ℕ
  polyChecks : ℕ
  warnings : List ((ℚ × ℚ) × String)
deriving DecidableEq, Repr

/-- The state of a freshly constructed classifier (`__init__`): empty cache,
no external calls made yet. -/
def initState : GeoState := ⟨[], 0, 0, []⟩

/-- `self.detroit_polygon_gps`: the closed ring of `(lon, lat)` vertices of
the Detroit region polygon (an axis-aligned rectangle). -/
def detroit_polygon_gps : List (ℚ × ℚ) :=
  [(-83.287, 42.255),
   (-83.287, 42.450),
   (-82.910, 42.450),
   (-82.910, 42.255),
   (-83.287, 42.255)]

/-- Model of the external point-in-polygon primitive
`self.detroit_polygon.contains(Point(lon, lat))` (shapely `Polygon.contains`)
specialised to the rectangle spanned by `detroit_polygon_gps`: shapely's
`contains` is strict interior membership, which for this axis-aligned
rectangle is exactly a strict bounding-box test on `(lon, lat)`. -/
def detroit_polygon_contains (p : ℚ × ℚ) : Bool :=
  decide (-83.287 < p.1 ∧ p.1 < -82.910 ∧ 42.255 < p.2 ∧ p.2 < 42.450)

/-- The boundary of the rectangle spanned by `detroit_polygon_gps`, as a set
of `(lon, lat)` pairs: either edge longitude with latitude in range, or either
edge latitude with longitude in range. -/
def onDetroitPolygonBoundary (lon lat : ℚ) : Prop :=
  ((lon = -83.287 ∨ lon = -82.910) ∧ 42.255 ≤ lat ∧ lat ≤ 42.450) ∨
  ((lat = 42.255 ∨ lat = 42.450) ∧ -83.287 ≤ lon ∧ lon ≤ -82.910)

instance (lon lat : ℚ) : Decidable (onDetroitPolygonBoundary lon lat) := by
  unfold onDetroitPolygonBoundary; infer_instance

/-- `RobustDetroitGeofence.coordinates_to_gps`: cached projection of a planar
point.  On a cache hit, replays the cached `(lat, lon)` with the current `z`.
On a miss, invokes the provider; if it raises, prints a warning naming the
coordinate pair and returns `None`; otherwise stores the `(lat, lon)` result
in the cache and returns it only when both `|lat| > 0.1` and `|lon| > 0.1`,
returning `None` for a degenerate result. -/
def coordinates_to_gps (proj : Provider) (s : GeoState) (x y z : ℚ) :
    Option (ℚ × ℚ × ℚ) × GeoState :=
  match cacheLookup s.cache (x, y) with
  | some (lat, lon) => (some (lat, lon, z), s)
  | none =>
    match proj x y with
    | .error e =>
        (none, { s with projCalls := s.projCalls + 1,
                        warnings := s.warnings ++ [((x, y), e)] })
    | .ok (lat, lon) =>
        let s' := { s with cache := s.cache ++ [((x, y), (lat, lon))],
                           projCalls := s.projCalls + 1 }
        if 0.1 < |lat| ∧ 0.1 < |lon| then (some (lat, lon, z), s')
        else (none, s')

/-- `RobustDetroitGeofence.is_detroit_by_gps_polygon`: projects the point via
`coordinates_to_gps`; on `None` returns `False`, otherwise tests the polygon
containment primitive on `(lon, lat)`. -/
def is_detroit_by_gps_polygon (proj : Provider) (s : GeoState) (x y z : ℚ) :
    Bool × GeoState :=
  match coordinates_to_gps proj s x y z with
  | (none, s') => (false, s')
  | (some (lat, lon, _), s') =>
      (detroit_polygon_contains (lon, lat),
       { s' with polyChecks := s'.polyChecks + 1 })

/-- `RobustDetroitGeofence.is_detroit_by_coordinate_ranges`: pure local-frame
bounding-box test against the fixed rectangle
`{min_x: 3000, max_x: 13000, min_y: 2000, max_y: 7000}`. -/
def is_detroit_by_coordinate_ranges (x y : ℚ) : Bool :=
  decide (3000 ≤ x ∧ x ≤ 13000 ∧ 2000 ≤ y ∧ y ≤ 7000)

/-- `RobustDetroitGeofence.is_detroit_by_city_detection`: invokes the
projection provider directly (no cache involvement); on an exception returns
`False`; otherwise, when the result is non-degenerate, tests it against the
broad Michigan latitude/longitude bounds. -/
def is_detroit_by_city_detection (proj : Provider) (s : GeoState)
    (x y z : ℚ) : Bool × GeoState :=
  let s' := { s with projCalls := s.projCalls + 1 }
  match proj x y with
  | .error _ => (false, s')
  | .ok (lat, lon) =>
      if 0.1 < |lat| ∧ 0.1 < |lon| then
        (decide (41.5 ≤ lat ∧ lat ≤ 43.0 ∧ -84.5 ≤ lon ∧ lon ≤ -82.0), s')
      else (false, s')

/-- `RobustDetroitGeofence.is_detroit_comprehensive`: string-dispatched
composite.  `"gps_polygon"`, `"coordinate_ranges"` and `"city_detection"`
invoke the corresponding predicate directly; any other method string (the
default `"auto"` included) runs the broad city-detection check first and only
on success runs the precise polygon check. -/
def is_detroit_comprehensive (proj : Provider) (s : GeoState) (x y z : ℚ)
    (method : String) : Bool × GeoState :=
  if method = "gps_polygon" then is_detroit_by_gps_polygon proj s x y z
  else if method = "coordinate_ranges" then
    (is_detroit_by_coordinate_ranges x y, s)
  else if method = "city_detection" then
    is_detroit_by_city_detection proj s x y z
  else
    let cd := is_detroit_by_city_detection proj s x y z
    if cd.1 then is_detroit_by_gps_polygon proj cd.2 x y z
    else (false, cd.2)

/-- The record returned by `get_detection_info`. -/
structure DetectionInfo where
  coordinates : ℚ × ℚ × ℚ
  gps_conversion : Option (ℚ × ℚ × ℚ)
  city_detection : Bool
  coordinate_ranges : Bool
  gps_polygon : Bool
  comprehensive_result : Bool
deriving DecidableEq, Repr

/-- `RobustDetroitGeofence.get_detection_info`: runs the projection and every
predicate, returning all intermediate values; the polygon field is only
computed when the projection succeeded, and the composite verdict uses the
default `"auto"` method. -/
def get_detection_info (proj : Provider) (s : GeoState) (x y z : ℚ) :
    DetectionInfo × GeoState :=
  let g := coordinates_to_gps proj s x y z
  let cd := is_detroit_by_city_detection proj g.2 x y z
  let cr := is_detroit_by_coordinate_ranges x y
  let gp := if g.1.isSome then is_detroit_by_gps_polygon proj cd.2 x y z
            else (false, cd.2)
  let comp := is_detroit_comprehensive proj gp.2 x y z "auto"
  (⟨(x, y, z), g.1, cd.1, cr, gp.1, comp.1⟩, comp.2)

/-- One sampled map point (`first_point['x']`, `['y']`, `['z']`). -/
structure MapPoint where
  x : ℚ
  y : ℚ
  z : ℚ
deriving DecidableEq, Repr

/-- The sampling loop of `analyze_scenario_location`: for each lane (given as
its `left_lane_boundary` point list), a lane with an empty boundary is
skipped; otherwise its first point is recorded and classified with the
default `"auto"` method, threading the classifier state through. -/
def sampleDetections (proj : Provider) :
    List (List MapPoint) → GeoState →
      List (ℚ × ℚ × ℚ) × List Bool × GeoState
  | [], s => ([], [], s)
  | boundary :: rest, s =>
    match boundary with
    | [] => sampleDetections proj rest s
    | p :: _ =>
        let r := is_detroit_comprehensive proj s p.x p.y p.z "auto"
        let t := sampleDetections proj rest r.2
        ((p.x, p.y, p.z) :: t.1, r.1 :: t.2.1, t.2.2)

/-- The record returned by `analyze_scenario_location`. -/
structure ScenarioAnalysis where
  is_detroit : Bool
  detroit_confidence : ℚ
  total_samples : ℕ
  detroit_samples : ℕ
  sample_coordinates : List (ℚ × ℚ × ℚ)
  sample_detections : List Bool
deriving DecidableEq, Repr

/-- `RobustDetroitGeofence.analyze_scenario_location`: samples at most the
first 10 lane segments, classifies each sampled first boundary point under
`"auto"`, and reports `is_detroit = (count true / count sampled) > 0.5` (and
`False` on an empty sample), `detroit_confidence = count true / count
sampled` (and `0.0` on an empty sample), the counts, and the first 5 sampled
coordinates and detections. -/
def analyze_scenario_location (proj : Provider) (s : GeoState)
    (lane_segments : List (List MapPoint)) : ScenarioAnalysis × GeoState :=
  let d := sampleDetections proj (lane_segments.take 10) s
  let detroit_count := d.2.1.count true
  let total_samples := d.2.1.length
  let is_detroit_scenario : Bool :=
    if 0 < total_samples then
      decide (((detroit_count : ℚ) / (total_samples : ℚ)) > 0.5)
    else false
  let conf : ℚ :=
    if 0 < total_samples then (detroit_count : ℚ) / (total_samples : ℚ)
    else 0
  (⟨is_detroit_scenario, conf, total_samples, detroit_count,
    d.1.take 5, d.2.1.take 5⟩, d.2.2)

/-! Concrete providers and inputs used to instantiate the theorems below. -/

/-- A provider that returns the degenerate pair `(0.05, 0.05)` for every
point, without raising. -/
def projDegenerate : Provider := fun _ _ => .ok (0.05, 0.05)

/-- A provider that returns a fixed valid Detroit-area pair
`(lat, lon) = (42.3, -83)` for every point. -/
def projGood : Provider := fun _ _ => .ok (42.3, -83)

/-- A provider that raises on every point. -/
def projRaise : Provider := fun _ _ => .error "projection failed"

/-- A provider that projects onto the west edge of the Detroit polygon:
`(lat, lon) = (42.3, -83.287)`. -/
def projBoundary : Provider := fun _ _ => .ok (42.3, -83.287)

/-- A provider under which points with `x ≤ 6` classify as Detroit and the
rest raise. -/
def projSix : Provider := fun x _ => if x ≤ 6 then .ok (42.3, -83) else .error "bad"

/-- A provider under which points with `x ≤ 5` classify as Detroit and the
rest raise. -/
def projFive : Provider := fun x _ => if x ≤ 5 then .ok (42.3, -83) else .error "bad"

/-- Ten lane segments whose first boundary points are `(1,0,0) .. (10,0,0)`. -/
def laneTen : List (List MapPoint) :=
  [[⟨1, 0, 0⟩], [⟨2, 0, 0⟩], [⟨3, 0, 0⟩], [⟨4, 0, 0⟩], [⟨5, 0, 0⟩],
   [⟨6, 0, 0⟩], [⟨7, 0, 0⟩], [⟨8, 0, 0⟩], [⟨9, 0, 0⟩], [⟨10, 0, 0⟩]]

/-- A state whose cache already holds the entry `(3, 4) ↦ (5, 6)`. -/
def cachedState : GeoState := ⟨[((3, 4), (5, 6))], 0, 0, []⟩

/-- `s'` extends `s`: the cache of `s'` is the cache of `s` with zero or more
entries appended (so every existing entry survives unmodified). -/
def CacheExtends (s s' : GeoState) : Prop := ∃ ext, s'.cache = s.cache ++ ext

/-! Helper lemmas. -/

theorem cacheLookup_append_of_some {c : Cache} {k v : ℚ × ℚ} (d : Cache)
    (h : cacheLookup c k = some v) : cacheLookup (c ++ d) k = some v := by
  induction c with
  | nil => simp [cacheLookup] at h
  | cons e rest ih =>
    by_cases he : e.1 = k
    · simpa [cacheLookup, he] using h
    · rw [cacheLookup, if_neg he] at h
      rw [List.cons_append, cacheLookup, if_neg he]
      exact ih h

theorem cacheLookup_append_of_none {c : Cache} {k : ℚ × ℚ} (d : Cache)
    (h : cacheLookup c k = none) : cacheLookup (c ++ d) k = cacheLookup d k := by
  induction c with
  | nil => simp [cacheLookup]
  | cons e rest ih =>
    by_cases he : e.1 = k
    · rw [cacheLookup, if_pos he] at h; exact absurd h (by simp)
    · rw [cacheLookup, if_neg he] at h
      rw [List.cons_append, cacheLookup, if_neg he]
      exact ih h

theorem cacheExtends_refl (s : GeoState) : CacheExtends s s := ⟨[], by simp⟩

theorem cacheExtends_trans {s t u : GeoState} (h₁ : CacheExtends s t)
    (h₂ : CacheExtends t u) : CacheExtends s u := by
  obtain ⟨a, ha⟩ := h₁
  obtain ⟨b, hb⟩ := h₂
  exact ⟨a ++ b, by rw [hb, ha, List.append_assoc]⟩

theorem cacheExtends_lookup {s t : GeoState} (h : CacheExtends s t)
    {k v : ℚ × ℚ} (hk : cacheLookup s.cache k = some v) :
    cacheLookup t.cache k = some v := by
  obtain ⟨ext, he⟩ := h
  rw [he]
  exact cacheLookup_append_of_some ext hk

theorem coordinates_to_gps_cacheExtends (proj : Provider) (s : GeoState)
    (x y z : ℚ) : CacheExtends s (coordinates_to_gps proj s x y z).2 := by
  rcases hc : cacheLookup s.cache (x, y) with _ | ⟨lat, lon⟩
  · rcases hp : proj x y with e | ⟨lat, lon⟩
    · exact ⟨[], by simp [coordinates_to_gps, hc, hp]⟩
    · by_cases hv : (0.1 : ℚ) < |lat| ∧ (0.1 : ℚ) < |lon|
      · exact ⟨[((x, y), (lat, lon))], by simp [coordinates_to_gps, hc, hp, hv]⟩
      · exact ⟨[((x, y), (lat, lon))], by simp [coordinates_to_gps, hc, hp, hv]⟩
  · exact ⟨[], by simp [coordinates_to_gps, hc]⟩

theorem is_detroit_by_gps_polygon_cacheExtends (proj : Provider)
    (s : GeoState) (x y z : ℚ) :
    CacheExtends s (is_detroit_by_gps_polygon proj s x y z).2 := by
  have h := coordinates_to_gps_cacheExtends proj s x y z
  rcases hg : coordinates_to_gps proj s x y z with ⟨v, s'⟩
  rw [hg] at h
  rcases v with _ | ⟨lat, lon, w⟩
  · simpa [is_detroit_by_gps_polygon, hg] using h
  · obtain ⟨ext, he⟩ := h
    exact ⟨ext, by simp only [is_detroit_by_gps_polygon, hg]; exact he⟩

theorem is_detroit_by_city_detection_state (proj : Provider) (s : GeoState)
    (x y z : ℚ) :
    (is_detroit_by_city_detection proj s x y z).2
      = { s with projCalls := s.projCalls + 1 } := by
  rcases hp : proj x y with e | ⟨lat, lon⟩
  · simp [is_detroit_by_city_detection, hp]
  · by_cases hv : (0.1 : ℚ) < |lat| ∧ (0.1 : ℚ) < |lon| <;>
      simp [is_detroit_by_city_detection, hp, hv]

theorem is_detroit_comprehensive_auto (proj : Provider) (s : GeoState)
    (x y z : ℚ) :
    is_detroit_comprehensive proj s x y z "auto"
      = (if (is_detroit_by_city_detection proj s x y z).1 then
          is_detroit_by_gps_polygon proj
            (is_detroit_by_city_detection proj s x y z).2 x y z
        else (false, (is_detroit_by_city_detection proj s x y z).2)) := by
  rw [is_detroit_comprehensive, if_neg (by decide), if_neg (by decide),
    if_neg (by decide)]

theorem is_detroit_comprehensive_cacheExtends (proj : Provider)
    (s : GeoState) (x y z : ℚ) (method : String) :
    CacheExtends s (is_detroit_comprehensive proj s x y z method).2 := by
  rw [is_detroit_comprehensive]
  by_cases h1 : method = "gps_polygon"
  · rw [if_pos h1]
    exact is_detroit_by_gps_polygon_cacheExtends proj s x y z
  · rw [if_neg h1]
    by_cases h2 : method = "coordinate_ranges"
    · rw [if_pos h2]
      exact cacheExtends_refl s
    · rw [if_neg h2]
      by_cases h3 : method = "city_detection"
      · rw [if_pos h3, is_detroit_by_city_detection_state]
        exact ⟨[], by simp⟩
      · rw [if_neg h3]
        have hcd : CacheExtends s (is_detroit_by_city_detection proj s x y z).2 :=
          ⟨[], by rw [is_detroit_by_city_detection_state]; simp⟩
        by_cases hb : (is_detroit_by_city_detection proj s x y z).1
        · rw [if_pos hb]
          exact cacheExtends_trans hcd
            (is_detroit_by_gps_polygon_cacheExtends proj _ x y z)
        · rw [if_neg hb]
          exact hcd

theorem sampleDetections_cacheExtends (proj : Provider)
    (L : List (List MapPoint)) (s : GeoState) :
    CacheExtends s (sampleDetections proj L s).2.2 := by
  induction L generalizing s with
  | nil => exact cacheExtends_refl s
  | cons boundary rest ih =>
    rcases boundary with _ | ⟨p, tail⟩
    · simpa [sampleDetections] using ih s
    · rw [sampleDetections]
      exact cacheExtends_trans
        (is_detroit_comprehensive_cacheExtends proj s p.x p.y p.z "auto")
        (ih _)

theorem get_detection_info_cacheExtends (proj : Provider) (s : GeoState)
    (x y z : ℚ) : CacheExtends s (get_detection_info proj s x y z).2 := by
  have h1 := coordinates_to_gps_cacheExtends proj s x y z
  have h2 : CacheExtends (coordinates_to_gps proj s x y z).2
      (is_detroit_by_city_detection proj
        (coordinates_to_gps proj s x y z).2 x y z).2 :=
    ⟨[], by rw [is_detroit_by_city_detection_state]; simp⟩
  have h3 : CacheExtends
      (is_detroit_by_city_detection proj
        (coordinates_to_gps proj s x y z).2 x y z).2
      ((if (coordinates_to_gps proj s x y z).1.isSome then
          is_detroit_by_gps_polygon proj
            (is_detroit_by_city_detection proj
              (coordinates_to_gps proj s x y z).2 x y z).2 x y z
        else
          (false, (is_detroit_by_city_detection proj
            (coordinates_to_gps proj s x y z).2 x y z).2)).2) := by
    by_cases hg : (coordinates_to_gps proj s x y z).1.isSome
    · rw [if_pos hg]
      exact is_detroit_by_gps_polygon_cacheExtends proj _ x y z
    · rw [if_neg hg]
      exact cacheExtends_refl _
  have h4 := is_detroit_comprehensive_cacheExtends proj
      ((if (coordinates_to_gps proj s x y z).1.isSome then
          is_detroit_by_gps_polygon proj
            (is_detroit_by_city_detection proj
              (coordinates_to_gps proj s x y z).2 x y z).2 x y z
        else
          (false, (is_detroit_by_city_detection proj
            (coordinates_to_gps proj s x y z).2 x y z).2)).2) x y z "auto"
  exact cacheExtends_trans h1 (cacheExtends_trans h2 (cacheExtends_trans h3 h4))

theorem coordinates_to_gps_hit (proj : Provider) {s : GeoState} {x y : ℚ}
    (z : ℚ) {lat lon : ℚ} (hc : cacheLookup s.cache (x, y) = some (lat, lon)) :
    coordinates_to_gps proj s x y z = (some (lat, lon, z), s) := by
  simp only [coordinates_to_gps]
  rw [hc]

theorem coordinates_to_gps_miss_error (proj : Provider) {s : GeoState}
    {x y : ℚ} (z : ℚ) {e : String}
    (hc : cacheLookup s.cache (x, y) = none) (hp : proj x y = .error e) :
    coordinates_to_gps proj s x y z
      = (none, { s with projCalls := s.projCalls + 1,
                        warnings := s.warnings ++ [((x, y), e)] }) := by
  simp only [coordinates_to_gps]
  rw [hc, hp]

theorem coordinates_to_gps_miss_ok (proj : Provider) {s : GeoState}
    {x y : ℚ} (z : ℚ) {lat lon : ℚ}
    (hc : cacheLookup s.cache (x, y) = none) (hp : proj x y = .ok (lat, lon)) :
    coordinates_to_gps proj s x y z
      = if (0.1 : ℚ) < |lat| ∧ (0.1 : ℚ) < |lon| then
          (some (lat, lon, z),
           { s with cache := s.cache ++ [((x, y), (lat, lon))],
                    projCalls := s.projCalls + 1 })
        else
          (none,
           { s with cache := s.cache ++ [((x, y), (lat, lon))],
                    projCalls := s.projCalls + 1 }) := by
  simp only [coordinates_to_gps]
  rw [hc, hp]

theorem coordinates_to_gps_success (proj : Provider) (s : GeoState)
    (x y z : ℚ) (v : ℚ × ℚ × ℚ)
    (h : (coordinates_to_gps proj s x y z).1 = some v) :
    ∃ lat lon, v = (lat, lon, z) ∧
      cacheLookup (coordinates_to_gps proj s x y z).2.cache (x, y)
        = some (lat, lon) := by
  rcases hc : cacheLookup s.cache (x, y) with _ | ⟨lat, lon⟩
  · rcases hp : proj x y with e | ⟨lat, lon⟩
    · rw [coordinates_to_gps_miss_error proj z hc hp] at h
      exact absurd h (by simp)
    · by_cases hv : (0.1 : ℚ) < |lat| ∧ (0.1 : ℚ) < |lon|
      · rw [coordinates_to_gps_miss_ok proj z hc hp, if_pos hv] at h ⊢
        refine ⟨lat, lon, ?_, ?_⟩
        · replace h : some (lat, lon, z) = some v := h
          exact (Option.some.injEq _ _ ▸ h).symm
        · show cacheLookup (s.cache ++ [((x, y), (lat, lon))]) (x, y)
            = some (lat, lon)
          rw [cacheLookup_append_of_none _ hc]
          simp [cacheLookup]
      · rw [coordinates_to_gps_miss_ok proj z hc hp, if_neg hv] at h
        exact absurd h (by simp)
  · rw [coordinates_to_gps_hit proj z hc] at h ⊢
    refine ⟨lat, lon, ?_, hc⟩
    replace h : some (lat, lon, z) = some v := h
    exact (Option.some.injEq _ _ ▸ h).symm

/-! Claim theorems. -/

/-- Claim C9: the broad check `is_detroit_by_city_detection` neither reads
nor writes the coordinate cache — it leaves the cache unchanged on every
input state, its boolean result is the same on any two states, and it
invokes the external projection provider on every call (exactly one more
provider invocation), even when the queried point is already cached. -/
theorem city_detection_cache_frame :
    ∀ (proj : Provider) (s t : GeoState) (x y z : ℚ),
      (is_detroit_by_city_detection proj s x y z).2.cache = s.cache ∧
      (is_detroit_by_city_detection proj s x y z).2.projCalls
        = s.projCalls + 1 ∧
      (is_detroit_by_city_detection proj s x y z).1
        = (is_detroit_by_city_detection proj t x y z).1 := by
  intro proj s t x y z
  refine ⟨by rw [is_detroit_by_city_detection_state],
    by rw [is_detroit_by_city_detection_state], ?_⟩
  rcases hp : proj x y with e | ⟨lat, lon⟩
  · simp [is_detroit_by_city_detection, hp]
  · by_cases hv : (0.1 : ℚ) < |lat| ∧ (0.1 : ℚ) < |lon| <;>
      simp [is_detroit_by_city_detection, hp, hv]

/-- Claim C6: `is_detroit_by_coordinate_ranges` returns `true` exactly when
`3000 ≤ x ≤ 13000` and `2000 ≤ y ≤ 7000`; dispatched as the
`"coordinate_ranges"` method it yields this definite boolean with the state
untouched, and its result is the same under any provider, in particular the
always-raising one. -/
theorem coordinate_ranges_spec :
    ∀ (x y : ℚ) (proj : Provider) (s : GeoState) (z : ℚ),
      (is_detroit_by_coordinate_ranges x y = true ↔
        (3000 ≤ x ∧ x ≤ 13000 ∧ 2000 ≤ y ∧ y ≤ 7000)) ∧
      is_detroit_comprehensive proj s x y z "coordinate_ranges"
        = (is_detroit_by_coordinate_ranges x y, s) ∧
      (is_detroit_comprehensive proj s x y z "coordinate_ranges").1
        = (is_detroit_comprehensive projRaise s x y z "coordinate_ranges").1 := by
  intro x y proj s z
  have hd : ∀ (q : Provider),
      is_detroit_comprehensive q s x y z "coordinate_ranges"
        = (is_detroit_by_coordinate_ranges x y, s) := by
    intro q
    rw [is_detroit_comprehensive, if_neg (by decide), if_pos rfl]
  exact ⟨by simp [is_detroit_by_coordinate_ranges], hd proj,
    by rw [hd proj, hd projRaise]⟩

/-- Claim C3: with the default `"auto"` method, `is_detroit_comprehensive`
returns `false` whenever the broad check `is_detroit_by_city_detection`
returns false, without invoking the polygon containment primitive at all
(the polygon-check counter is unchanged); when the broad check returns true
it returns exactly the result of `is_detroit_by_gps_polygon` run from the
intermediate state. -/
theorem classify_auto_short_circuits :
    ∀ (proj : Provider) (s : GeoState) (x y z : ℚ),
      ((is_detroit_by_city_detection proj s x y z).1 = false →
        is_detroit_comprehensive proj s x y z "auto"
          = (false, (is_detroit_by_city_detection proj s x y z).2) ∧
        (is_detroit_comprehensive proj s x y z "auto").2.polyChecks
          = s.polyChecks) ∧
      ((is_detroit_by_city_detection proj s x y z).1 = true →
        is_detroit_comprehensive proj s x y z "auto"
          = is_detroit_by_gps_polygon proj
              (is_detroit_by_city_detection proj s x y z).2 x y z) := by
  intro proj s x y z
  constructor
  · intro h
    have he : is_detroit_comprehensive proj s x y z "auto"
        = (false, (is_detroit_by_city_detection proj s x y z).2) := by
      rw [is_detroit_comprehensive_auto, if_neg (by simp [h])]
    refine ⟨he, ?_⟩
    rw [he, is_detroit_by_city_detection_state]
  · intro h
    rw [is_detroit_comprehensive_auto, if_pos (by simp [h])]

unseal Rat.mul Rat.inv Nat.gcd Rat.ofScientific in
/-- Witness for `classify_auto_short_circuits`: under the always-raising
provider the broad check is false and `"auto"` short-circuits to false;
under `projGood` the broad check is true and `"auto"` agrees with the
polygon check. -/
theorem classify_auto_short_circuits_witness :
    ((is_detroit_by_city_detection projRaise initState 1 2 0).1 = false ∧
      is_detroit_comprehensive projRaise initState 1 2 0 "auto"
        = (false, (is_detroit_by_city_detection projRaise initState 1 2 0).2)) ∧
    ((is_detroit_by_city_detection projGood initState 1 2 0).1 = true ∧
      is_detroit_comprehensive projGood initState 1 2 0 "auto"
        = is_detroit_by_gps_polygon projGood
            (is_detroit_by_city_detection projGood initState 1 2 0).2 1 2 0) :=
  ⟨⟨by decide,
    ((classify_auto_short_circuits projRaise initState 1 2 0).1 (by decide)).1⟩,
   ⟨by decide,
    (classify_auto_short_circuits projGood initState 1 2 0).2 (by decide)⟩⟩

/-- Claim C10: polygon containment is boundary-exclusive — whenever the
projection of a point yields a `(lat, lon)` whose `(lon, lat)` lies exactly
on the boundary of the Detroit region polygon, `is_detroit_by_gps_polygon`
returns `false`, because the containment primitive tests strict interior
membership. -/
theorem polygon_boundary_exclusive :
    ∀ (proj : Provider) (s : GeoState) (x y z lat lon w : ℚ),
      (coordinates_to_gps proj s x y z).1 = some (lat, lon, w) →
      onDetroitPolygonBoundary lon lat →
      (is_detroit_by_gps_polygon proj s x y z).1 = false := by
  intro proj s x y z lat lon w h hb
  have hcontains : detroit_polygon_contains (lon, lat) = false := by
    rw [detroit_polygon_contains]
    simp only [decide_eq_false_iff_not]
    rintro ⟨c1, c2, c3, c4⟩
    rcases hb with ⟨hlon, hlat1, hlat2⟩ | ⟨hlat, hlon1, hlon2⟩
    · rcases hlon with h1 | h1
      · rw [h1] at c1; exact lt_irrefl _ c1
      · rw [h1] at c2; exact lt_irrefl _ c2
    · rcases hlat with h1 | h1
      · rw [h1] at c3; exact lt_irrefl _ c3
      · rw [h1] at c4; exact lt_irrefl _ c4
  rcases hg : coordinates_to_gps proj s x y z with ⟨v, s'⟩
  rw [hg] at h
  replace h : v = some (lat, lon, w) := h
  subst h
  simp [is_detroit_by_gps_polygon, hg, hcontains]

unseal Rat.mul Rat.inv Nat.gcd Rat.ofScientific in
/-- Counterexample to claim C1 as stated: under a provider that returns the
degenerate pair `(0.05, 0.05)` without raising, the first call to
`coordinates_to_gps` returns no value while the second call on the same
point returns the cached degenerate value, so the two calls do not return
identical results; and under an always-raising provider the second call
re-invokes the provider (the call counter reaches 2). -/
theorem project_twice_differs :
    ((coordinates_to_gps projDegenerate initState 1 2 0).1 = none ∧
      (coordinates_to_gps projDegenerate
          (coordinates_to_gps projDegenerate initState 1 2 0).2 1 2 0).1
        = some (0.05, 0.05, 0)) ∧
    (coordinates_to_gps projRaise
        (coordinates_to_gps projRaise initState 1 2 0).2 1 2 0).2.projCalls
      = 2 := by decide

/-- Claim C1 (amended): whenever a call to `coordinates_to_gps` returns a
value, a repeated call on the same point returns the identical value and
leaves the state completely unchanged — in particular the projection
provider is not re-invoked and the cached `(x,y) ↦ (lat,lon)` entry is
exactly replayed. -/
theorem project_replay_on_success :
    ∀ (proj : Provider) (s : GeoState) (x y z : ℚ) (v : ℚ × ℚ × ℚ),
      (coordinates_to_gps proj s x y z).1 = some v →
      coordinates_to_gps proj (coordinates_to_gps proj s x y z).2 x y z
        = (some v, (coordinates_to_gps proj s x y z).2) := by
  intro proj s x y z v h
  obtain ⟨lat, lon, hv, hcache⟩ := coordinates_to_gps_success proj s x y z v h
  rw [hv]
  exact coordinates_to_gps_hit proj z hcache

unseal Rat.mul Rat.inv Nat.gcd Rat.ofScientific in
/-- Witness for `project_replay_on_success` at a concrete successful
projection. -/
theorem project_replay_on_success_witness :
    (coordinates_to_gps projGood initState 1 2 0).1 = some (42.3, -83, 0) ∧
    coordinates_to_gps projGood
        (coordinates_to_gps projGood initState 1 2 0).2 1 2 0
      = (some (42.3, -83, 0), (coordinates_to_gps projGood initState 1 2 0).2) :=
  ⟨by decide,
   project_replay_on_success projGood initState 1 2 0 (42.3, -83, 0) (by decide)⟩

/-- Claim C2: on a call where the projection provider is actually consulted
(the queried point is not in the cache), `coordinates_to_gps` returns a
value only if the projection result satisfies both `|lat| > 0.1` and
`|lon| > 0.1`; in particular, when the provider returns `(0.05, 0.05)`
without raising, it returns no value. -/
theorem project_validity_filter :
    ∀ (proj : Provider) (s : GeoState) (x y z lat lon : ℚ),
      cacheLookup s.cache (x, y) = none →
      (proj x y = .ok (lat, lon) →
        ¬((0.1 : ℚ) < |lat| ∧ (0.1 : ℚ) < |lon|) →
        (coordinates_to_gps proj s x y z).1 = none) ∧
      (proj x y = .ok (0.05, 0.05) →
        (coordinates_to_gps proj s x y z).1 = none) ∧
      (∀ la lo w, (coordinates_to_gps proj s x y z).1 = some (la, lo, w) →
        (0.1 : ℚ) < |la| ∧ (0.1 : ℚ) < |lo|) := by
  intro proj s x y z lat lon hc
  refine ⟨?_, ?_, ?_⟩
  · intro hp hv
    rw [coordinates_to_gps_miss_ok proj z hc hp, if_neg hv]
  · intro hp
    rw [coordinates_to_gps_miss_ok proj z hc hp, if_neg ?_]
    rintro ⟨h1, -⟩
    have habs : |(0.05 : ℚ)| = 0.05 := abs_of_pos (by norm_num)
    rw [habs] at h1
    norm_num at h1
  · intro la lo w h
    rcases hp : proj x y with e | ⟨lat₂, lon₂⟩
    · rw [coordinates_to_gps_miss_error proj z hc hp] at h
      exact absurd h (by simp)
    · by_cases hv : (0.1 : ℚ) < |lat₂| ∧ (0.1 : ℚ) < |lon₂|
      · rw [coordinates_to_gps_miss_ok proj z hc hp, if_pos hv] at h
        replace h : some (lat₂, lon₂, z) = some (la, lo, w) := h
        have h' := Option.some.inj h
        have h3 : lat₂ = la := congrArg Prod.fst h'
        have h4 : lon₂ = lo := congrArg (fun p => p.2.1) h'
        rw [← h3, ← h4]
        exact hv
      · rw [coordinates_to_gps_miss_ok proj z hc hp, if_neg hv] at h
        exact absurd h (by simp)

unseal Rat.mul Rat.inv Nat.gcd Rat.ofScientific in
/-- Witness for `project_validity_filter`: the degenerate provider on a
fresh cache yields no value. -/
theorem project_validity_filter_witness :
    cacheLookup initState.cache (1, 2) = none ∧
    projDegenerate 1 2 = .ok (0.05, 0.05) ∧
    (coordinates_to_gps projDegenerate initState 1 2 0).1 = none :=
  ⟨rfl, rfl,
   (project_validity_filter projDegenerate initState 1 2 0 0.05 0.05 rfl).2.1 rfl⟩

/-- Claim C4: if the projection call raises, `coordinates_to_gps` records a
warning naming the offending coordinate pair and returns no value; and no
classifier operation propagates a provider exception — under an
always-raising provider every public operation still returns its documented
definite result. -/
theorem projection_failure_recovered :
    ∀ (proj : Provider) (s : GeoState) (x y z : ℚ) (e : String),
      (cacheLookup s.cache (x, y) = none → proj x y = .error e →
        coordinates_to_gps proj s x y z
          = (none, { s with projCalls := s.projCalls + 1,
                            warnings := s.warnings ++ [((x, y), e)] })) ∧
      ((∀ a b : ℚ, proj a b = .error e) → cacheLookup s.cache (x, y) = none →
        (coordinates_to_gps proj s x y z).1 = none ∧
        (is_detroit_by_gps_polygon proj s x y z).1 = false ∧
        (is_detroit_by_city_detection proj s x y z).1 = false ∧
        (is_detroit_comprehensive proj s x y z "auto").1 = false ∧
        (is_detroit_comprehensive proj s x y z "coordinate_ranges").1
          = is_detroit_by_coordinate_ranges x y) := by
  intro proj s x y z e
  constructor
  · intro hc hp
    exact coordinates_to_gps_miss_error proj z hc hp
  · intro hall hc
    have hp := hall x y
    have h1 : (coordinates_to_gps proj s x y z).1 = none := by
      rw [coordinates_to_gps_miss_error proj z hc hp]
    have h2 : (is_detroit_by_gps_polygon proj s x y z).1 = false := by
      rcases hg : coordinates_to_gps proj s x y z with ⟨v, s'⟩
      rw [hg] at h1
      replace h1 : v = none := h1
      subst h1
      simp [is_detroit_by_gps_polygon, hg]
    have h3 : (is_detroit_by_city_detection proj s x y z).1 = false := by
      simp [is_detroit_by_city_detection, hp]
    have h4 : (is_detroit_comprehensive proj s x y z "auto").1 = false := by
      rw [is_detroit_comprehensive_auto, if_neg (by simp [h3])]
    refine ⟨h1, h2, h3, h4, ?_⟩
    rw [is_detroit_comprehensive, if_neg (by decide), if_pos rfl]

/-- Witness for `projection_failure_recovered` under the always-raising
provider on a fresh state. -/
theorem projection_failure_recovered_witness :
    cacheLookup initState.cache (1, 2) = none ∧
    (∀ a b : ℚ, projRaise a b = .error "projection failed") ∧
    coordinates_to_gps projRaise initState 1 2 0
      = (none, { initState with
                  projCalls := initState.projCalls + 1,
                  warnings := initState.warnings
                    ++ [((1, 2), "projection failed")] }) ∧
    (is_detroit_comprehensive projRaise initState 1 2 0 "auto").1 = false :=
  ⟨rfl, fun _ _ => rfl,
   (projection_failure_recovered projRaise initState 1 2 0 "projection failed").1
     rfl rfl,
   ((projection_failure_recovered projRaise initState 1 2 0 "projection failed").2
     (fun _ _ => rfl) rfl).2.2.2.1⟩

/-- Claim C8: when the provider returns a degenerate pair without raising,
`coordinates_to_gps` stores it in the cache before the validity check — the
call itself returns no value yet the entry is cached, and every subsequent
call on the same point takes the cache-hit path, returning the degenerate
pair (with the caller's z) and leaving the state unchanged. -/
theorem degenerate_result_poisons_cache :
    ∀ (proj : Provider) (s : GeoState) (x y z lat lon : ℚ),
      cacheLookup s.cache (x, y) = none →
      proj x y = .ok (lat, lon) →
      ¬((0.1 : ℚ) < |lat| ∧ (0.1 : ℚ) < |lon|) →
      (coordinates_to_gps proj s x y z).1 = none ∧
      cacheLookup (coordinates_to_gps proj s x y z).2.cache (x, y)
        = some (lat, lon) ∧
      (∀ w, coordinates_to_gps proj (coordinates_to_gps proj s x y z).2 x y w
        = (some (lat, lon, w), (coordinates_to_gps proj s x y z).2)) := by
  intro proj s x y z lat lon hc hp hv
  have hmain := coordinates_to_gps_miss_ok proj z hc hp
  rw [if_neg hv] at hmain
  have hcache : cacheLookup (coordinates_to_gps proj s x y z).2.cache (x, y)
      = some (lat, lon) := by
    rw [hmain]
    show cacheLookup (s.cache ++ [((x, y), (lat, lon))]) (x, y)
      = some (lat, lon)
    rw [cacheLookup_append_of_none _ hc]
    simp [cacheLookup]
  exact ⟨by rw [hmain], hcache, fun w => coordinates_to_gps_hit proj w hcache⟩

unseal Rat.mul Rat.inv Nat.gcd Rat.ofScientific in
/-- Witness for `degenerate_result_poisons_cache` at the degenerate provider
`(0.05, 0.05)`. -/
theorem degenerate_result_poisons_cache_witness :
    cacheLookup initState.cache (1, 2) = none ∧
    projDegenerate 1 2 = .ok (0.05, 0.05) ∧
    ¬((0.1 : ℚ) < |(0.05 : ℚ)| ∧ (0.1 : ℚ) < |(0.05 : ℚ)|) ∧
    (coordinates_to_gps projDegenerate initState 1 2 0).1 = none ∧
    coordinates_to_gps projDegenerate
        (coordinates_to_gps projDegenerate initState 1 2 0).2 1 2 7
      = (some (0.05, 0.05, 7),
         (coordinates_to_gps projDegenerate initState 1 2 0).2) :=
  ⟨rfl, rfl, by decide,
   (degenerate_result_poisons_cache projDegenerate initState 1 2 0 0.05 0.05
     rfl rfl (by decide)).1,
   (degenerate_result_poisons_cache projDegenerate initState 1 2 0 0.05 0.05
     rfl rfl (by decide)).2.2 7⟩

unseal Rat.mul Rat.inv Nat.gcd Rat.ofScientific in
/-- Witness for `polygon_boundary_exclusive`: a point projecting onto the
west edge `lon = -83.287` of the polygon is classified outside. -/
theorem polygon_boundary_exclusive_witness :
    (coordinates_to_gps projBoundary initState 1 2 0).1
      = some (42.3, -83.287, 0) ∧
    onDetroitPolygonBoundary (-83.287) 42.3 ∧
    (is_detroit_by_gps_polygon projBoundary initState 1 2 0).1 = false :=
  ⟨by decide, by decide,
    polygon_boundary_exclusive projBoundary initState 1 2 0 42.3 (-83.287) 0
      (by decide) (by decide)⟩

/-- Claim C7: the coordinate cache grows monotonically — every classifier
operation returns a state whose cache is the input cache with zero or more
entries appended, and consequently no operation ever removes or modifies an
existing cache entry (every lookup that succeeded before the operation
still succeeds with the same value afterwards). -/
theorem cache_monotone :
    ∀ (proj : Provider) (s : GeoState) (x y z : ℚ) (method : String)
      (L : List (List MapPoint)),
      CacheExtends s (coordinates_to_gps proj s x y z).2 ∧
      CacheExtends s (is_detroit_by_gps_polygon proj s x y z).2 ∧
      CacheExtends s (is_detroit_by_city_detection proj s x y z).2 ∧
      CacheExtends s (is_detroit_comprehensive proj s x y z method).2 ∧
      CacheExtends s (get_detection_info proj s x y z).2 ∧
      CacheExtends s (analyze_scenario_location proj s L).2 ∧
      (∀ k v, cacheLookup s.cache k = some v →
        cacheLookup (coordinates_to_gps proj s x y z).2.cache k = some v ∧
        cacheLookup (is_detroit_by_gps_polygon proj s x y z).2.cache k
          = some v ∧
        cacheLookup (is_detroit_by_city_detection proj s x y z).2.cache k
          = some v ∧
        cacheLookup (is_detroit_comprehensive proj s x y z method).2.cache k
          = some v ∧
        cacheLookup (get_detection_info proj s x y z).2.cache k = some v ∧
        cacheLookup (analyze_scenario_location proj s L).2.cache k
          = some v) := by
  intro proj s x y z method L
  have e1 := coordinates_to_gps_cacheExtends proj s x y z
  have e2 := is_detroit_by_gps_polygon_cacheExtends proj s x y z
  have e3 : CacheExtends s (is_detroit_by_city_detection proj s x y z).2 :=
    ⟨[], by rw [is_detroit_by_city_detection_state]; simp⟩
  have e4 := is_detroit_comprehensive_cacheExtends proj s x y z method
  have e5 := get_detection_info_cacheExtends proj s x y z
  have e6 : CacheExtends s (analyze_scenario_location proj s L).2 :=
    sampleDetections_cacheExtends proj (L.take 10) s
  exact ⟨e1, e2, e3, e4, e5, e6, fun k v hk =>
    ⟨cacheExtends_lookup e1 hk, cacheExtends_lookup e2 hk,
     cacheExtends_lookup e3 hk, cacheExtends_lookup e4 hk,
     cacheExtends_lookup e5 hk, cacheExtends_lookup e6 hk⟩⟩

unseal Rat.mul Rat.inv Nat.gcd Rat.ofScientific in
/-- Witness for `cache_monotone`: a pre-existing cache entry survives both a
fresh projection and a full scenario analysis. -/
theorem cache_monotone_witness :
    cacheLookup cachedState.cache (3, 4) = some (5, 6) ∧
    cacheLookup (coordinates_to_gps projGood cachedState 1 2 0).2.cache (3, 4)
      = some (5, 6) ∧
    cacheLookup
        (analyze_scenario_location projGood cachedState laneTen).2.cache (3, 4)
      = some (5, 6) :=
  ⟨by decide,
   ((cache_monotone projGood cachedState 1 2 0 "auto" laneTen).2.2.2.2.2.2
     (3, 4) (5, 6) (by decide)).1,
   ((cache_monotone projGood cachedState 1 2 0 "auto" laneTen).2.2.2.2.2.2
     (3, 4) (5, 6) (by decide)).2.2.2.2.2⟩

unseal Rat.mul Rat.inv Nat.gcd Rat.ofScientific in
/-- Claim C5: `analyze_scenario_location` reports
`confidence = detroit_samples / total_samples` and
`is_detroit = (confidence > 1/2)` with the `0.5` boundary exclusive —
6 true out of 10 sampled gives `is_detroit = true`, exactly 5 out of 10
gives `is_detroit = false` — and on an empty input it reports
`is_detroit = false` with `confidence = 0`. -/
theorem analyze_confidence_spec :
    ∀ (proj : Provider) (s : GeoState) (L : List (List MapPoint)),
      (0 < (analyze_scenario_location proj s L).1.total_samples →
        (analyze_scenario_location proj s L).1.detroit_confidence
          = ((analyze_scenario_location proj s L).1.detroit_samples : ℚ)
            / ((analyze_scenario_location proj s L).1.total_samples : ℚ) ∧
        (analyze_scenario_location proj s L).1.is_detroit
          = decide ((analyze_scenario_location proj s L).1.detroit_confidence
              > (1 : ℚ) / 2)) ∧
      ((analyze_scenario_location proj s L).1.total_samples = 0 →
        (analyze_scenario_location proj s L).1.is_detroit = false ∧
        (analyze_scenario_location proj s L).1.detroit_confidence = 0) ∧
      (analyze_scenario_location proj s []).1
        = ⟨false, 0, 0, 0, [], []⟩ ∧
      ((analyze_scenario_location projSix initState laneTen).1.is_detroit
          = true ∧
        (analyze_scenario_location projSix initState laneTen).1.detroit_confidence
          = 3 / 5 ∧
        (analyze_scenario_location projSix initState laneTen).1.total_samples
          = 10 ∧
        (analyze_scenario_location projSix initState laneTen).1.detroit_samples
          = 6) ∧
      ((analyze_scenario_location projFive initState laneTen).1.is_detroit
          = false ∧
        (analyze_scenario_location projFive initState laneTen).1.detroit_confidence
          = 1 / 2 ∧
        (analyze_scenario_location projFive initState laneTen).1.detroit_samples
          = 5) := by
  intro proj s L
  refine ⟨?_, ?_, by rfl, by decide, by decide⟩
  · simp only [analyze_scenario_location]
    intro hpos
    simp only [if_pos hpos, show (0.5 : ℚ) = 1 / 2 by norm_num]
    exact ⟨trivial, trivial⟩
  · simp only [analyze_scenario_location]
    intro h0
    have hneg : ¬ (0 < (sampleDetections proj (L.take 10) s).2.1.length) := by
      omega
    rw [if_neg hneg, if_neg hneg]
    exact ⟨rfl, rfl⟩

unseal Rat.mul Rat.inv Nat.gcd Rat.ofScientific in
/-- Witness for `analyze_confidence_spec`: the positive-sample clause at the
6-of-10 input and the empty-sample clause at the empty input. -/
theorem analyze_confidence_spec_witness :
    0 < (analyze_scenario_location projSix initState laneTen).1.total_samples ∧
    (analyze_scenario_location projSix initState laneTen).1.detroit_confidence
      = ((analyze_scenario_location projSix initState laneTen).1.detroit_samples : ℚ)
        / ((analyze_scenario_location projSix initState laneTen).1.total_samples : ℚ) ∧
    (analyze_scenario_location projRaise initState []).1.total_samples = 0 ∧
    (analyze_scenario_location projRaise initState []).1.is_detroit = false :=
  ⟨by decide,
   ((analyze_confidence_spec projSix initState laneTen).1 (by decide)).1,
   rfl,
   ((analyze_confidence_spec projRaise initState []).2.1 rfl).1⟩

end Geofence

